import Mathlib

/-!
Verification of the iceoryx repository slice against its specification.

The development shallowly embeds the parts of the code the claims are
about:

* `ResizeableLockFreeQueue` — the implementation header
  (iceoryx_utils/concurrent/resizeable_lockfree_queue.hpp) is absent from
  the provided sources; only its unit tests
  (test_resizeable_lockfree_queue.cpp) are present.  The queue is
  therefore modelled from the specification (spec §4.4) and the
  behaviours its unit tests pin down, as a sequential functional model:
  a current capacity bounded by a compile-time maximum and a FIFO list
  of elements (head = oldest).
* The error enums and the conversion between them from
  iceoryx_posh/include/iox/posh/experimental/runtime.hpp.
* The panic / assertion machinery from
  iceoryx_hoofs/error_reporting/custom/default/error_reporting.inl and
  iceoryx_hoofs/reporting/include/iox/assertions.hpp, embedded as
  functions producing a trace of observable actions.
* `StaticLifetimeGuard` — only the class declaration header is in the
  sources (the .inl with the implementation is absent), so its counting
  semantics are modelled from the spec and the header's doc comments.
-/

namespace Iceoryx

/-- Modelled from the spec: `ResizeableLockFreeQueue` (implementation
header resizeable_lockfree_queue.hpp absent from the sources, only its
unit tests are present).  Sequential functional state: the compile-time
maximum capacity (the `MaxCapacity` template parameter), the current
capacity, and the queued elements with the head of the list being the
oldest (next to be popped). -/
structure ResizeableLockFreeQueue (α : Type) where
  maxCapacity : Nat
  capacity : Nat
  elems : List α
deriving Repr

namespace ResizeableLockFreeQueue

/-- Modelled from the spec: the constructor taking an initial capacity;
per the unit test `constructWithMoreThanMaxCapacitySaturatesAtMaxCapacity`
a request above the compile-time maximum saturates at the maximum. -/
def construct (α : Type) (maxCap initialCapacity : Nat) :
    ResizeableLockFreeQueue α :=
  { maxCapacity := maxCap, capacity := min initialCapacity maxCap, elems := [] }

/-- Modelled from the spec: the default constructor; per the unit test
`initialCapacityIsMaximalbyDefault` the capacity starts at the maximum. -/
def constructDefault (α : Type) (maxCap : Nat) : ResizeableLockFreeQueue α :=
  { maxCapacity := maxCap, capacity := maxCap, elems := [] }

/-- `size()`: number of elements currently in the queue. -/
def size (q : ResizeableLockFreeQueue α) : Nat :=
  q.elems.length

/-- Modelled from the spec: `tryPush` appends at the back when the queue
is not yet at its current capacity and reports success; otherwise it
fails and leaves the queue unchanged (the unit tests only exercise the
non-overflowing variant, where a push on a full queue returns false). -/
def tryPush (q : ResizeableLockFreeQueue α) (value : α) :
    Bool × ResizeableLockFreeQueue α :=
  if q.size < q.capacity then (true, { q with elems := q.elems ++ [value] })
  else (false, q)

/-- Modelled from the spec: `pop` removes and returns the oldest element
(FIFO), or returns none on an empty queue. -/
def pop (q : ResizeableLockFreeQueue α) :
    Option α × ResizeableLockFreeQueue α :=
  match q.elems with
  | [] => (none, q)
  | x :: rest => (some x, { q with elems := rest })

/-- Modelled from the spec (§4.4): `setCapacity(newCapacity, removeHandler)`
fails iff the request exceeds the compile-time maximum; on success, if the
queue currently holds more than `newCapacity` elements the oldest surplus
elements are removed in FIFO order and each is delivered to the remove
handler before the call returns.  The third component is the sequence of
removed elements in the order they are handed to the remove handler. -/
def setCapacity (q : ResizeableLockFreeQueue α) (newCapacity : Nat) :
    Bool × ResizeableLockFreeQueue α × List α :=
  if q.maxCapacity < newCapacity then (false, q, [])
  else
    let removeCount := q.elems.length - newCapacity
    (true,
      { q with capacity := newCapacity, elems := q.elems.drop removeCount },
      q.elems.take removeCount)

/-- Well-formedness: the current capacity never exceeds the compile-time
maximum and the queue never holds more elements than its capacity. -/
def wf (q : ResizeableLockFreeQueue α) : Prop :=
  q.capacity ≤ q.maxCapacity ∧ q.elems.length ≤ q.capacity

instance (q : ResizeableLockFreeQueue α) : Decidable q.wf := by
  unfold wf; infer_instance

/-- The values returned by `n` successive pops, in order. -/
def popSequence (q : ResizeableLockFreeQueue α) : Nat → List α
  | 0 => []
  | n + 1 =>
    match q.pop with
    | (none, _) => []
    | (some x, q1) => x :: popSequence q1 n

/-- Pushing a list of values one by one; returns the per-push success
flags in order together with the final queue. -/
def tryPushList (q : ResizeableLockFreeQueue α) :
    List α → List Bool × ResizeableLockFreeQueue α
  | [] => ([], q)
  | x :: xs =>
    let r := q.tryPush x
    let rs := tryPushList r.2 xs
    (r.1 :: rs.1, rs.2)

theorem popSequence_eq_take (n : Nat) (q : ResizeableLockFreeQueue α) :
    q.popSequence n = q.elems.take n := by
  induction n generalizing q with
  | zero => simp [popSequence]
  | succ n ih =>
    cases h : q.elems with
    | nil => simp [popSequence, pop, h]
    | cons x rest => simp [popSequence, pop, h, ih]

end ResizeableLockFreeQueue

/-- From runtime.hpp lines 37-41: the error enumeration of
`RuntimeBuilder` — exactly the two enumerators `TIMEOUT` and
`REGISTRATION_FAILED`. -/
inductive RuntimeBuilderError where
  | TIMEOUT
  | REGISTRATION_FAILED
deriving DecidableEq, Fintype, Repr

/-- From runtime.hpp lines 81-87: the error enumeration of the
underlying `IpcRuntimeInterface` as enumerated exhaustively by the
`from` conversion — `TIMEOUT` and `MALFORMED_RESPONSE`. -/
inductive IpcRuntimeInterfaceError where
  | TIMEOUT
  | MALFORMED_RESPONSE
deriving DecidableEq, Fintype, Repr

/-- From runtime.hpp lines 74-88: the
`from<IpcRuntimeInterface::Error, RuntimeBuilder::Error>` conversion. -/
def fromIpcError : IpcRuntimeInterfaceError → RuntimeBuilderError
  | .TIMEOUT => .TIMEOUT
  | .MALFORMED_RESPONSE => .REGISTRATION_FAILED

/-- The three error kinds the spec ascribes to registration:
`register(processName, timeout)` yields a result or an error that is
`Timeout`, `Rejected` or `Malformed` (written from the spec, for
comparison with the enumeration found in the source). -/
inductive SpecRegisterErrorKind where
  | Timeout
  | Rejected
  | Malformed
deriving DecidableEq, Fintype, Repr

/-- From static_lifetime_guard.hpp: the observable static state of
`StaticLifetimeGuard<T>` — the guard count `s_count`, whether the
guarded instance is currently constructed and alive
(`s_instanceState == INITALIZED` with `s_instance` set), and a
generation number identifying which construction of the instance the
current one is (so "same instance" is expressible). -/
structure GuardState where
  count : Nat
  live : Bool
  generation : Nat
deriving DecidableEq, Repr

/-- The operations on the static state of `StaticLifetimeGuard<T>`:
constructing a guard, destroying a guard, and calling `instance(...)`. -/
inductive GuardOp where
  | guardCtor
  | guardDtor
  | instanceCall
deriving DecidableEq, Repr

/-- Modelled from the spec: the transition semantics of
`StaticLifetimeGuard` (the implementation file static_lifetime_guard.inl
is absent from the sources; only the class declaration header is).  Per
the header's doc comments and spec §9: each constructed guard increments
the count; a guard destructor decrements it and, when the count thereby
reaches zero, destroys the guarded instance; `instance(...)` constructs
the instance on first use (creating an implicit static guard, hence
incrementing the count) and afterwards returns the same instance. -/
def guardStep (s : GuardState) : GuardOp → GuardState
  | .guardCtor => { s with count := s.count + 1 }
  | .guardDtor =>
    if s.count = 1 then { s with count := 0, live := false }
    else { s with count := s.count - 1 }
  | .instanceCall =>
    if s.live then s
    else { count := s.count + 1, live := true, generation := s.generation + 1 }

/-- The identity (generation) of the instance returned by a call to
`StaticLifetimeGuard<T>::instance(...)` in state `s`. -/
def instanceResult (s : GuardState) : Nat :=
  if s.live then s.generation else s.generation + 1

/-- A captured source location (file, line, function), as produced by
`IOX_CURRENT_SOURCE_LOCATION` in the source. -/
structure SourceLocation where
  file : String
  line : Nat
  function : String
deriving DecidableEq, Repr

/-- From assertions.hpp lines 54-76: the two violation values
`Violation::createAssertViolation()` and
`Violation::createEnforceViolation()` forwarded on a failed assertion
or enforcement. -/
inductive ViolationKind where
  | ASSERT_VIOLATION
  | ENFORCE_VIOLATION
deriving DecidableEq, Repr

/-- The observable actions of the error-reporting machinery: evaluating
an assertion condition (with its value), emitting the panic log line
for a source location and message, invoking the installed error
handler's panic hook, terminating the process via `abort()`, reporting
a fatal violation (with its captured location and message) to the
currently installed error handler, and throwing an exception across the
API boundary (an action the embedded code never emits). -/
inductive ReportAction where
  | evalCondition (result : Bool)
  | logPanic (loc : SourceLocation) (msg : String)
  | invokePanicHook
  | abortProcess
  | reportToHandler (v : ViolationKind) (loc : SourceLocation) (msg : String)
  | throwException
deriving DecidableEq, Repr

/-- From error_reporting.inl lines 46-51: `panic()` fetches the
currently installed `ErrorHandler`, invokes its `panic` hook, then
calls `abort()`; the action trace of a call. -/
def panicTrace : List ReportAction :=
  [.invokePanicHook, .abortProcess]

/-- From error_reporting.inl lines 63-68: `panic(location, msg)` logs
the panic line with the captured source location and the message, then
calls `panic()`. -/
def panicWithMessage (loc : SourceLocation) (msg : String) : List ReportAction :=
  .logPanic loc ("Panic " ++ msg) :: panicTrace

/-- Modelled from the spec: `forwardPanic` (its definition in
iox/error_reporting/error_forwarding.hpp is absent from the sources;
assertions.hpp only invokes it) forwards to the custom panic with the
captured source location and message — per spec §7, fatal conditions
invoke the panic hook, which logs source location and message and
terminates. -/
def forwardPanic (loc : SourceLocation) (msg : String) : List ReportAction :=
  panicWithMessage loc msg

/-- From assertions.hpp line 41: `IOX_PANIC(message)` calls
`forwardPanic` with the current source location and the message. -/
def IOX_PANIC (loc : SourceLocation) (msg : String) : List ReportAction :=
  forwardPanic loc msg

/-- Modelled from the spec: `forwardFatalError` (its definition in
iox/error_reporting/error_forwarding.hpp is absent from the sources)
reports the fatal violation, with its captured source location and
message, to the currently installed (swappable) error handler and then
panics — fatal conditions invoke the panic hook and terminate. -/
def forwardFatalError (v : ViolationKind) (loc : SourceLocation)
    (msg : String) : List ReportAction :=
  .reportToHandler v loc msg :: forwardPanic loc msg

/-- From assertions.hpp lines 54-62: `IOX_ASSERT(expr, message)` expands
to a conditional on `Configuration::CHECK_ASSERT && !(expr)`; by
short-circuit evaluation the condition `expr` is evaluated only when
`CHECK_ASSERT` holds (debug builds), and on violation an assert
violation with the captured source location and message is forwarded.
`checkAssert` passes the compile-time configuration constant
`Configuration::CHECK_ASSERT`. -/
def IOX_ASSERT (checkAssert : Bool) (expr : Bool) (loc : SourceLocation)
    (msg : String) : List ReportAction :=
  if checkAssert then
    .evalCondition expr ::
      (if expr then [] else forwardFatalError .ASSERT_VIOLATION loc msg)
  else []

/-- From assertions.hpp lines 68-76: `IOX_ENFORCE(expr, message)` always
evaluates `expr` and on violation forwards an enforce violation with
the captured source location and message. -/
def IOX_ENFORCE (expr : Bool) (loc : SourceLocation) (msg : String) :
    List ReportAction :=
  .evalCondition expr ::
    (if expr then [] else forwardFatalError .ENFORCE_VIOLATION loc msg)

end Iceoryx

open Iceoryx

/-- C1: for a `ResizeableLockFreeQueue` currently holding `s` elements,
`setCapacity(k, removeHandler)` with `k < s` succeeds, delivers exactly
`s - k` elements to the remove handler — the oldest ones, in FIFO
(insertion) order — and afterwards the capacity is `k` and the queue
holds exactly the newest `k` elements, which subsequent pops return in
FIFO order. -/
theorem setCapacity_shrink_removes_oldest_in_fifo_order
    {α : Type} (q : ResizeableLockFreeQueue α) (k : Nat)
    (hwf : q.wf) (hk : k < q.size) :
    (q.setCapacity k).1 = true ∧
    (q.setCapacity k).2.2 = q.elems.take (q.size - k) ∧
    (q.setCapacity k).2.2.length = q.size - k ∧
    (q.setCapacity k).2.1.capacity = k ∧
    (q.setCapacity k).2.1.elems = q.elems.drop (q.size - k) ∧
    (q.setCapacity k).2.1.popSequence (q.setCapacity k).2.1.size
      = q.elems.drop (q.size - k) := by
  obtain ⟨hcm, hlc⟩ := hwf
  have hks : k ≤ q.maxCapacity := le_trans (le_of_lt hk) (le_trans hlc hcm)
  have hnm : ¬ q.maxCapacity < k := Nat.not_lt.mpr hks
  refine ⟨?_, ?_, ?_, ?_, ?_, ?_⟩ <;>
    simp [ResizeableLockFreeQueue.setCapacity, hnm,
      ResizeableLockFreeQueue.size,
      ResizeableLockFreeQueue.popSequence_eq_take,
      List.length_take, Nat.sub_le, Nat.min_eq_left]

/-- Witness for C1 at a concrete queue of maximum capacity 4 holding
three elements, shrunk to capacity 1: the two oldest elements are
removed in order and the newest one remains. -/
theorem setCapacity_shrink_removes_oldest_in_fifo_order_witness :
    let q : ResizeableLockFreeQueue Nat :=
      { maxCapacity := 4, capacity := 4, elems := [10, 11, 12] }
    (q.setCapacity 1).1 = true ∧
    (q.setCapacity 1).2.2 = [10, 11] ∧
    (q.setCapacity 1).2.1.elems = [12] := by
  have h := setCapacity_shrink_removes_oldest_in_fifo_order
    (α := Nat) { maxCapacity := 4, capacity := 4, elems := [10, 11, 12] } 1
    (by decide) (by decide)
  exact ⟨h.1, by simpa using h.2.1, by simpa using h.2.2.2.2.1⟩

/-- C2: enlarging a `ResizeableLockFreeQueue` via `setCapacity` to any
value up to the compile-time maximum succeeds and preserves all queued
elements and their order (subsequent pops return them all in FIFO
order); the size is unchanged by the enlargement. -/
theorem setCapacity_enlarge_preserves_elements
    {α : Type} (q : ResizeableLockFreeQueue α) (newCap : Nat)
    (hwf : q.wf) (hge : q.capacity ≤ newCap) (hle : newCap ≤ q.maxCapacity) :
    (q.setCapacity newCap).1 = true ∧
    (q.setCapacity newCap).2.1.capacity = newCap ∧
    (q.setCapacity newCap).2.1.elems = q.elems ∧
    (q.setCapacity newCap).2.1.size = q.size ∧
    (q.setCapacity newCap).2.1.popSequence q.size = q.elems ∧
    (q.setCapacity newCap).2.2 = [] := by
  obtain ⟨hcm, hlc⟩ := hwf
  have hnm : ¬ q.maxCapacity < newCap := Nat.not_lt.mpr hle
  have hzero : q.elems.length - newCap = 0 :=
    Nat.sub_eq_zero_of_le (le_trans hlc hge)
  refine ⟨?_, ?_, ?_, ?_, ?_, ?_⟩ <;>
    simp [ResizeableLockFreeQueue.setCapacity, hnm, hzero,
      ResizeableLockFreeQueue.size,
      ResizeableLockFreeQueue.popSequence_eq_take]

/-- Witness for C2 at a concrete queue of maximum capacity 4 with
capacity 2 holding two elements, enlarged to capacity 4. -/
theorem setCapacity_enlarge_preserves_elements_witness :
    let q : ResizeableLockFreeQueue Nat :=
      { maxCapacity := 4, capacity := 2, elems := [7, 8] }
    (q.setCapacity 4).1 = true ∧
    (q.setCapacity 4).2.1.elems = [7, 8] ∧
    (q.setCapacity 4).2.1.size = 2 := by
  have h := setCapacity_enlarge_preserves_elements
    (α := Nat) { maxCapacity := 4, capacity := 2, elems := [7, 8] } 4
    (by decide) (by decide) (by decide)
  exact ⟨h.1, by simpa using h.2.2.1, by simpa using h.2.2.2.1⟩

/-- C4: in the absence of concurrent operations,
`setCapacity(q.capacity())` is a no-op: it succeeds, removes nothing,
and leaves the queue (capacity, size and elements in order) unchanged. -/
theorem setCapacity_current_capacity_is_noop
    {α : Type} (q : ResizeableLockFreeQueue α) (hwf : q.wf) :
    q.setCapacity q.capacity = (true, q, []) := by
  obtain ⟨hcm, hlc⟩ := hwf
  have hnm : ¬ q.maxCapacity < q.capacity := Nat.not_lt.mpr hcm
  simp [ResizeableLockFreeQueue.setCapacity, hnm, Nat.sub_eq_zero_of_le hlc]

/-- Witness for C4 at a concrete queue. -/
theorem setCapacity_current_capacity_is_noop_witness :
    ({ maxCapacity := 4, capacity := 3, elems := [1, 2] } :
        ResizeableLockFreeQueue Nat).setCapacity 3
      = (true, { maxCapacity := 4, capacity := 3, elems := [1, 2] }, []) :=
  setCapacity_current_capacity_is_noop
    { maxCapacity := 4, capacity := 3, elems := [1, 2] } (by decide)

/-- The queue of the C3 scenario: `ResizeableLockFreeQueue<int, 10>`
constructed with initial capacity 0. -/
def scenarioInitialQueue : ResizeableLockFreeQueue Nat :=
  ResizeableLockFreeQueue.construct Nat 10 0

/-- The C3 scenario queue after `setCapacity(5)`. -/
def scenarioResizedQueue : ResizeableLockFreeQueue Nat :=
  (scenarioInitialQueue.setCapacity 5).2.1

/-- The C3 scenario: pushing the values 0..5 one by one after the
resize (success flags and resulting queue). -/
def scenarioPushes : List Bool × ResizeableLockFreeQueue Nat :=
  scenarioResizedQueue.tryPushList [0, 1, 2, 3, 4, 5]

/-- C3: a `ResizeableLockFreeQueue<int, 10>` constructed with capacity 0
has capacity 0; `setCapacity(5)` succeeds; five `tryPush` calls with the
values 0 through 4 succeed and a sixth fails; subsequent pops yield
0, 1, 2, 3, 4 in that order. -/
theorem scenario_capacity0_setCapacity5_push_pop :
    scenarioInitialQueue.capacity = 0 ∧
    (scenarioInitialQueue.setCapacity 5).1 = true ∧
    scenarioResizedQueue.capacity = 5 ∧
    scenarioPushes.1 = [true, true, true, true, true, false] ∧
    scenarioPushes.2.popSequence 5 = [0, 1, 2, 3, 4] := by
  decide

/-- C9: constructing a `ResizeableLockFreeQueue` with a requested
initial capacity greater than the compile-time maximum does not fail:
the resulting capacity saturates at `maxCapacity()`. -/
theorem construct_above_max_saturates_at_max_capacity
    (α : Type) (maxCap request : Nat) (h : maxCap < request) :
    (ResizeableLockFreeQueue.construct α maxCap request).capacity = maxCap ∧
    (ResizeableLockFreeQueue.construct α maxCap request).maxCapacity = maxCap := by
  refine ⟨?_, rfl⟩
  simp [ResizeableLockFreeQueue.construct, Nat.min_eq_right (le_of_lt h)]

/-- Witness for C9: requesting capacity 11 on a queue whose compile-time
maximum is 10 yields capacity 10. -/
theorem construct_above_max_saturates_at_max_capacity_witness :
    (ResizeableLockFreeQueue.construct Nat 10 11).capacity = 10 ∧
    (ResizeableLockFreeQueue.construct Nat 10 11).maxCapacity = 10 :=
  construct_above_max_saturates_at_max_capacity Nat 10 11 (by decide)

/-- C10: a default-constructed `ResizeableLockFreeQueue` has `capacity()`
equal to `maxCapacity()`, and `maxCapacity()` equals the compile-time
capacity template parameter. -/
theorem default_construct_capacity_is_max_capacity
    (α : Type) (maxCap : Nat) :
    (ResizeableLockFreeQueue.constructDefault α maxCap).capacity
      = (ResizeableLockFreeQueue.constructDefault α maxCap).maxCapacity ∧
    (ResizeableLockFreeQueue.constructDefault α maxCap).maxCapacity = maxCap :=
  ⟨rfl, rfl⟩

/-- C5 counterexample: the spec claims registration failures come in
exactly three error kinds (Timeout, Rejected, Malformed), but the
error enumeration of `RuntimeBuilder` in the source has exactly two
enumerators (`TIMEOUT` and `REGISTRATION_FAILED`), so the kind counts
differ. -/
theorem runtime_builder_error_has_two_kinds_not_three :
    Fintype.card RuntimeBuilderError = 2 ∧
    Fintype.card SpecRegisterErrorKind = 3 ∧
    Fintype.card RuntimeBuilderError ≠ Fintype.card SpecRegisterErrorKind := by
  refine ⟨by decide, by decide, by decide⟩

/-- C5 (amended): registration either succeeds or fails with exactly one
of the two error kinds `TIMEOUT` or `REGISTRATION_FAILED`, and every
failure of the underlying registration interface (`TIMEOUT`,
`MALFORMED_RESPONSE`) maps onto one of these two kinds via the `from`
conversion: `TIMEOUT` to `TIMEOUT` and `MALFORMED_RESPONSE` to
`REGISTRATION_FAILED`. -/
theorem register_failures_map_onto_two_error_kinds :
    Fintype.card RuntimeBuilderError = 2 ∧
    fromIpcError .TIMEOUT = .TIMEOUT ∧
    fromIpcError .MALFORMED_RESPONSE = .REGISTRATION_FAILED ∧
    ∀ e : IpcRuntimeInterfaceError,
      fromIpcError e = .TIMEOUT ∨ fromIpcError e = .REGISTRATION_FAILED := by
  refine ⟨by decide, rfl, rfl, ?_⟩
  intro e
  cases e
  · exact Or.inl rfl
  · exact Or.inr rfl

/-- C6: every fatal condition (`forwardFatalError`, and a plain
`IOX_PANIC`) invokes the panic hook, which logs the captured source
location and message and then terminates the process (`abort()` is the
final action of the trace, so the panic function never returns to its
caller), and no exception crosses the API boundary (the trace never
contains a throw action). -/
theorem fatal_conditions_invoke_panic_hook_and_terminate
    (v : ViolationKind) (loc : SourceLocation) (msg : String) :
    ReportAction.invokePanicHook ∈ forwardFatalError v loc msg ∧
    ReportAction.logPanic loc ("Panic " ++ msg) ∈ forwardFatalError v loc msg ∧
    (forwardFatalError v loc msg).getLast? = some .abortProcess ∧
    ReportAction.throwException ∉ forwardFatalError v loc msg ∧
    ReportAction.invokePanicHook ∈ IOX_PANIC loc msg ∧
    ReportAction.logPanic loc ("Panic " ++ msg) ∈ IOX_PANIC loc msg ∧
    (IOX_PANIC loc msg).getLast? = some .abortProcess ∧
    ReportAction.throwException ∉ IOX_PANIC loc msg := by
  refine ⟨?_, ?_, rfl, ?_, ?_, ?_, rfl, ?_⟩ <;>
    simp [Iceoryx.forwardFatalError, Iceoryx.IOX_PANIC, Iceoryx.forwardPanic,
      Iceoryx.panicWithMessage, Iceoryx.panicTrace]

/-- C7: the assertion API has two levels.  `IOX_ASSERT` evaluates its
condition only when debug checking (`Configuration::CHECK_ASSERT`) is
enabled and is elided entirely (no evaluation, no forwarding) in
release builds, while `IOX_ENFORCE` always evaluates its condition; on
violation both forward a fatal violation (of the respective kind)
carrying the captured source location and message to the currently
installed error handler. -/
theorem assert_is_debug_only_enforce_is_always_on
    (expr : Bool) (loc : SourceLocation) (msg : String) :
    IOX_ASSERT false expr loc msg = [] ∧
    ReportAction.evalCondition expr ∈ IOX_ASSERT true expr loc msg ∧
    ReportAction.evalCondition expr ∈ IOX_ENFORCE expr loc msg ∧
    (expr = false →
      ReportAction.reportToHandler .ASSERT_VIOLATION loc msg
        ∈ IOX_ASSERT true expr loc msg) ∧
    (expr = false →
      ReportAction.reportToHandler .ENFORCE_VIOLATION loc msg
        ∈ IOX_ENFORCE expr loc msg) := by
  cases expr <;>
    simp [Iceoryx.IOX_ASSERT, Iceoryx.IOX_ENFORCE, Iceoryx.forwardFatalError,
      Iceoryx.forwardPanic, Iceoryx.panicWithMessage, Iceoryx.panicTrace]

/-- Witness for C7 at a concrete violated condition: both macros forward
the respective fatal violation with the captured location and message. -/
theorem assert_is_debug_only_enforce_is_always_on_witness :
    ReportAction.reportToHandler .ASSERT_VIOLATION ⟨"a.cpp", 7, "f"⟩ "boom"
      ∈ IOX_ASSERT true false ⟨"a.cpp", 7, "f"⟩ "boom" ∧
    ReportAction.reportToHandler .ENFORCE_VIOLATION ⟨"a.cpp", 7, "f"⟩ "boom"
      ∈ IOX_ENFORCE false ⟨"a.cpp", 7, "f"⟩ "boom" := by
  have h := assert_is_debug_only_enforce_is_always_on
    false ⟨"a.cpp", 7, "f"⟩ "boom"
  exact ⟨h.2.2.2.1 rfl, h.2.2.2.2 rfl⟩

/-- C8: while at least one `StaticLifetimeGuard` exists (guard count
above one before a guard destructor runs), the guarded instance is not
destroyed and the count stays positive; a transition that destroys the
instance can only be a guard destructor run at count 1, which takes the
count to zero (destruction only after the count reaches zero); and once
the instance is constructed, every `instance(...)` call returns the
same instance and leaves the state unchanged. -/
theorem static_lifetime_guard_protects_instance (s : GuardState) :
    (1 < s.count →
      (guardStep s .guardDtor).live = s.live ∧
      0 < (guardStep s .guardDtor).count) ∧
    (∀ op : GuardOp, s.live = true → (guardStep s op).live = false →
      op = .guardDtor ∧ s.count = 1 ∧ (guardStep s op).count = 0) ∧
    (s.live = true →
      instanceResult s = s.generation ∧ guardStep s .instanceCall = s) := by
  refine ⟨?_, ?_, ?_⟩
  · intro h
    have hne : s.count ≠ 1 := by omega
    constructor
    · simp [guardStep, hne]
    · simp [guardStep, hne]
      omega
  · intro op hl hd
    cases op with
    | guardCtor => simp [guardStep, hl] at hd
    | guardDtor =>
      by_cases hc : s.count = 1
      · exact ⟨rfl, hc, by simp [guardStep, hc]⟩
      · simp [guardStep, hc, hl] at hd
    | instanceCall => simp [guardStep, hl] at hd
  · intro hl
    exact ⟨by simp [instanceResult, hl], by simp [guardStep, hl]⟩

/-- Witness for C8 at the concrete state with two guards and a live
instance of generation 5: a guard destructor does not destroy the
instance, and an `instance()` call returns generation 5. -/
theorem static_lifetime_guard_protects_instance_witness :
    (guardStep ⟨2, true, 5⟩ .guardDtor).live = true ∧
    instanceResult ⟨2, true, 5⟩ = 5 := by
  have h := static_lifetime_guard_protects_instance ⟨2, true, 5⟩
  exact ⟨(h.1 (by decide)).1, (h.2.2 rfl).1⟩
